import Mathlib

/-
Formal model of `src/Expression Tree Builder/expression_tree.py`.

The Python program builds a binary expression tree from postfix / prefix /
infix token sequences, converts a tree back to the three notations, and
evaluates it numerically.  Each definition below is a direct translation of
one Python function; Python exceptions become explicit `Except` errors.

Modelling conventions:
* Python `None` children become `Option TreeNode`.
* Python numbers (floats) are modelled as rationals `ℚ`; every arithmetic
  fact proved here involves only values on which IEEE double arithmetic is
  exact, so the rational model agrees with the float semantics there.
* Each distinct Python exception site is mapped to a constructor of `Err`
  below; `IndexError` (raised implicitly by `list.pop()` / indexing on an
  empty list) gets its own constructor, distinct from the `ValueError`s the
  code raises explicitly and from the error names the documentation uses.
-/

namespace ExpressionTree

/-- Failure modes of the pipeline.  The first six correspond to exceptions
the Python code actually raises; `emptyExpression` and
`unbalancedParentheses` are error names that appear only in the program's
documentation (the code never raises them — they exist here so that claims
about them can be stated); `nonIntegerExponent` is an artifact of the
rational number model, marking float `**` applications that the model does
not represent (never reached in any fact proved below). -/
inductive Err where
  | invalidToken (t : String)
  | insufficientOperands
  | malformedExpression
  | nonNumericOperand
  | corruptTree
  | zeroDivision
  | indexError
  | emptyExpression
  | unbalancedParentheses
  | nonIntegerExponent
deriving DecidableEq, Repr

/-- `class TreeNode` (lines 5-9): a value and two optional children. -/
inductive TreeNode where
  | mk (value : String) (left : Option TreeNode) (right : Option TreeNode)

/-- `TreeNode(token)` as used for operands: both children are `None`. -/
def leaf (v : String) : TreeNode := .mk v none none

/-- `is_operator` (lines 12-13): membership in the set `+ - * / ^`. -/
def is_operator (t : String) : Bool :=
  t == "+" || t == "-" || t == "*" || t == "/" || t == "^"

/-- `is_operand` (lines 15-16): Python `str.isalnum()` — true iff the token
is non-empty and every character is alphanumeric (restricted here to the
ASCII alphanumerics recognised by `Char.isAlphanum`; all tokens appearing
in the claims are ASCII). -/
def is_operand (t : String) : Bool :=
  !t.data.isEmpty && t.data.all Char.isAlphanum

/-- Loop body of `build_tree_from_postfix` (lines 19-32), with the stack
made explicit (head = top of stack).  An operand pushes a leaf; an operator
pops right then left (line 28-29) and pushes the combined node; fewer than
two stack items raise `ValueError` ("Not enough operands", line 26); any
other token raises `ValueError` ("Invalid token", line 32). -/
def buildPostAux : List String → List TreeNode → Except Err (List TreeNode)
  | [], stack => .ok stack
  | token :: rest, stack =>
    if is_operand token then
      buildPostAux rest (leaf token :: stack)
    else if is_operator token then
      match stack with
      | right :: left :: stack' =>
          buildPostAux rest (TreeNode.mk token (some left) (some right) :: stack')
      | _ => .error .insufficientOperands
    else
      .error (.invalidToken token)

/-- `build_tree_from_postfix` (lines 19-35): run the stack loop on the
tokens; if the final stack does not hold exactly one tree, raise
`ValueError` ("Incorrect number of operands/operators", line 34),
otherwise return the single tree (`stack[-1]`, line 35). -/
def build_tree_from_postfix (tokens : List String) : Except Err TreeNode :=
  match buildPostAux tokens [] with
  | .ok [t] => .ok t
  | .ok _ => .error .malformedExpression
  | .error e => .error e

/-- Loop body of `build_tree_from_prefix` (lines 38-51): same stack
discipline, but an operator pops left first, then right (lines 47-48). -/
def buildPreAux : List String → List TreeNode → Except Err (List TreeNode)
  | [], stack => .ok stack
  | token :: rest, stack =>
    if is_operand token then
      buildPreAux rest (leaf token :: stack)
    else if is_operator token then
      match stack with
      | left :: right :: stack' =>
          buildPreAux rest (TreeNode.mk token (some left) (some right) :: stack')
      | _ => .error .insufficientOperands
    else
      .error (.invalidToken token)

/-- `build_tree_from_prefix` (lines 38-54): iterate over `reversed(prefix)`
(line 40) with the prefix stack discipline; same final-stack check as the
postfix builder (lines 52-54). -/
def build_tree_from_prefix (tokens : List String) : Except Err TreeNode :=
  match buildPreAux tokens.reverse [] with
  | .ok [t] => .ok t
  | .ok _ => .error .malformedExpression
  | .error e => .error e

/-- The `precedence` dict of `infix_to_postfix` (line 58):
`+`,`-` ↦ 1, `*`,`/` ↦ 2, `^` ↦ 3.  The Python dict is only ever indexed
with operator tokens (guarded by `is_operator` / the `!= '('` test), so the
0 default is never consulted. -/
def precedence (t : String) : Nat :=
  if t == "+" || t == "-" then 1
  else if t == "*" || t == "/" then 2
  else if t == "^" then 3
  else 0

/-- The `associativity` dict of `infix_to_postfix` (line 59): every
operator is left-associative except `^`.  Like `precedence`, it is only
indexed with operator tokens. -/
def associativity (t : String) : String :=
  if t == "^" then "R" else "L"

/-- The inner `while` loop of the operator branch (lines 66-69): pop
operators of higher precedence (or equal precedence when the incoming
token is left-associative) into the output, stopping at `(` or an empty
stack.  Returns the remaining stack and extended output. -/
def shuntOp (token : String) : List String → List String → List String × List String
  | [], out => ([], out)
  | top :: rest, out =>
    if top != "(" &&
        (precedence token < precedence top ||
          (precedence token == precedence top && associativity token == "L")) then
      shuntOp token rest (out ++ [top])
    else
      (top :: rest, out)

/-- The `)` branch (lines 74-76): pop into the output until the top is `(`,
then discard the `(`.  If the stack empties first, the final unguarded
`stack.pop()` (line 76) raises `IndexError` — the code does not raise a
named unbalanced-parentheses error. -/
def popUntilParen : List String → List String → Except Err (List String × List String)
  | [], _ => .error .indexError
  | top :: rest, out =>
    if top == "(" then .ok (rest, out)
    else popUntilParen rest (out ++ [top])

/-- Main loop of `infix_to_postfix` (lines 62-81) over the input tokens,
carrying the operator stack (head = top) and the output.  At the end of the
input, all remaining stack contents are popped into the output in pop order
(lines 79-80) — including any leftover `(`. -/
def shuntAux : List String → List String → List String → Except Err (List String)
  | [], stack, out => .ok (out ++ stack)
  | token :: rest, stack, out =>
    if is_operand token then
      shuntAux rest stack (out ++ [token])
    else if is_operator token then
      match shuntOp token stack out with
      | (stack', out') => shuntAux rest (token :: stack') out'
    else if token == "(" then
      shuntAux rest (token :: stack) out
    else if token == ")" then
      match popUntilParen stack out with
      | .ok (stack', out') => shuntAux rest stack' out'
      | .error e => .error e
    else
      .error (.invalidToken token)

/-- `infix_to_postfix` (lines 57-81): shunting-yard over the infix tokens,
starting from an empty output and an empty operator stack. -/
def infix_to_postfix (expression : List String) : Except Err (List String) :=
  shuntAux expression [] []

/-- `detect_expression_type` (lines 84-90): first token an operator →
`"prefix"`; else last token an operator → `"postfix"`; else `"infix"`.
There is no emptiness check: on an empty list, `expression[0]` (line 85)
raises `IndexError` before anything else happens. -/
def detect_expression_type (expression : List String) : Except Err String :=
  match expression with
  | [] => .error .indexError
  | t :: ts =>
    if is_operator t then .ok "prefix"
    else if is_operator ((t :: ts).getLast (List.cons_ne_nil t ts)) then .ok "postfix"
    else .ok "infix"

/-- `to_infix` (lines 93-98): empty string for an absent node; operator
nodes are fully parenthesised. -/
def to_infix : Option TreeNode → String
  | none => ""
  | some (.mk v l r) =>
    if is_operator v then "(" ++ to_infix l ++ " " ++ v ++ " " ++ to_infix r ++ ")"
    else v

/-- `to_postfix` (lines 100-103): left, right, then the node value. -/
def to_postfix : Option TreeNode → List String
  | none => []
  | some (.mk v l r) => to_postfix l ++ to_postfix r ++ [v]

/-- `to_prefix` (lines 105-108): the node value, then left, then right. -/
def to_prefix : Option TreeNode → List String
  | none => []
  | some (.mk v l r) => v :: ( to_prefix l ++ to_prefix r)

/-- `float(node.value)` on an operand token (line 123), in the rational
model: a non-empty all-digit token parses to its decimal value; any other
alphanumeric token (a variable name) fails, which in the Python code
surfaces as `ValueError` ("Cannot evaluate expression with variables",
line 125).  (Python `float()` also accepts exponent forms such as `"1e5"`
and `"inf"`; no claim involves such tokens and they are outside this
rational model.) -/
def float_of_token (t : String) : Option ℚ :=
  if !t.data.isEmpty && t.data.all Char.isDigit then
    some ((t.data.foldl (fun n c => 10 * n + (c.toNat - 48)) 0 : ℕ) : ℚ)
  else
    none

/-- The `operations` dict applied at line 129: `+ - * /` are rational
arithmetic; Python float division raises `ZeroDivisionError` on a zero
divisor (it does not produce an IEEE infinity).  Python float `**` is
represented only for integer exponents (`0.0 ** negative` raises
`ZeroDivisionError` in Python); a fractional exponent is flagged
`nonIntegerExponent`, the one point where the rational model abstains.
The final branch (an operator outside the dict) is unreachable, since
`applyOp` is only invoked under `is_operator`. -/
def applyOp (v : String) (a b : ℚ) : Except Err ℚ :=
  if v == "+" then .ok (a + b)
  else if v == "-" then .ok (a - b)
  else if v == "*" then .ok (a * b)
  else if v == "/" then
    if b = 0 then .error .zeroDivision else .ok (a / b)
  else if v == "^" then
    if b.den = 1 then
      if a = 0 ∧ b.num < 0 then .error .zeroDivision else .ok (a ^ b.num)
    else .error .nonIntegerExponent
  else .error .corruptTree

/-- `evaluate_tree` (lines 111-130): absent node → 0; operand leaf →
numeric value of the token, else `ValueError` (line 125); operator node →
evaluate left, then right, then apply the operation (lines 127-129);
anything else → `ValueError` ("Invalid node", line 130). -/
def evaluate_tree : Option TreeNode → Except Err ℚ
  | none => .ok 0
  | some (.mk v l r) =>
    if is_operand v then
      match float_of_token v with
      | some q => .ok q
      | none => .error .nonNumericOperand
    else if is_operator v then
      match evaluate_tree l with
      | .error e => .error e
      | .ok lv =>
        match evaluate_tree r with
        | .error e => .error e
        | .ok rv => applyOp v lv rv
    else
      .error .corruptTree

/-- The node invariant stated in the specification: every node is either an
operand leaf (no children) or an operator node with both children present
and themselves well-formed. -/
inductive WellFormed : TreeNode → Prop where
  | leafWF (v : String) : is_operand v = true → WellFormed (.mk v none none)
  | nodeWF (v : String) (l r : TreeNode) :
      is_operator v = true → WellFormed l → WellFormed r →
      WellFormed (.mk v (some l) (some r))

/-- Postfix tokens of a whole build stack, bottom of the stack first
(the list head is the top of the stack). -/
def stackPostTokens : List TreeNode → List String
  | [] => []
  | n :: rest => stackPostTokens rest ++ to_postfix (some n)

/-- Prefix tokens of a whole build stack, top of the stack first. -/
def stackPreTokens : List TreeNode → List String
  | [] => []
  | n :: rest => to_prefix (some n) ++ stackPreTokens rest


/-! ### Helper lemmas -/

/-- The two token classes are disjoint: none of the five operator strings
is alphanumeric. -/
theorem operator_not_operand (t : String) (h : is_operator t = true) :
    is_operand t = false := by
  simp [is_operator] at h
  rcases h with (((h | h) | h) | h) | h <;> subst h <;> decide

/-- Stack invariant of the postfix builder: a successful run appends the
consumed tokens to the postfix reading of the stack. -/
theorem buildPostAux_tokens : ∀ (ts : List String) (s s' : List TreeNode),
    buildPostAux ts s = .ok s' → stackPostTokens s' = stackPostTokens s ++ ts := by
  intro ts
  induction ts with
  | nil =>
    intro s s' h
    simp [buildPostAux] at h
    simp [h]
  | cons t ts ih =>
    intro s s' h
    by_cases hA : is_operand t = true
    · rw [show buildPostAux (t :: ts) s = buildPostAux ts (leaf t :: s) by
        simp [buildPostAux, hA]] at h
      rw [ih _ _ h]
      simp [stackPostTokens, leaf, to_postfix]
    · by_cases hB : is_operator t = true
      · rcases s with _ | ⟨r, _ | ⟨l, rest⟩⟩
        · simp [buildPostAux, hA, hB] at h
        · simp [buildPostAux, hA, hB] at h
        · rw [show buildPostAux (t :: ts) (r :: l :: rest)
              = buildPostAux ts (TreeNode.mk t (some l) (some r) :: rest) by
            simp [buildPostAux, hA, hB]] at h
          rw [ih _ _ h]
          simp [stackPostTokens, to_postfix]
      · simp [buildPostAux, hA, hB] at h

/-- Stack invariant of the prefix builder: a successful run prepends the
reversal of the consumed tokens to the prefix reading of the stack. -/
theorem buildPreAux_tokens : ∀ (ts : List String) (s s' : List TreeNode),
    buildPreAux ts s = .ok s' → stackPreTokens s' = ts.reverse ++ stackPreTokens s := by
  intro ts
  induction ts with
  | nil =>
    intro s s' h
    simp [buildPreAux] at h
    simp [h]
  | cons t ts ih =>
    intro s s' h
    by_cases hA : is_operand t = true
    · rw [show buildPreAux (t :: ts) s = buildPreAux ts (leaf t :: s) by
        simp [buildPreAux, hA]] at h
      rw [ih _ _ h]
      simp [stackPreTokens, leaf, to_prefix]
    · by_cases hB : is_operator t = true
      · rcases s with _ | ⟨l, _ | ⟨r, rest⟩⟩
        · simp [buildPreAux, hA, hB] at h
        · simp [buildPreAux, hA, hB] at h
        · rw [show buildPreAux (t :: ts) (l :: r :: rest)
              = buildPreAux ts (TreeNode.mk t (some l) (some r) :: rest) by
            simp [buildPreAux, hA, hB]] at h
          rw [ih _ _ h]
          simp [stackPreTokens, to_prefix]
      · simp [buildPreAux, hA, hB] at h

/-- A successful postfix build means the stack loop ended with exactly the
returned tree on the stack. -/
theorem build_post_ok (tokens : List String) (T : TreeNode)
    (h : build_tree_from_postfix tokens = .ok T) :
    buildPostAux tokens [] = .ok [T] := by
  unfold build_tree_from_postfix at h
  rcases haux : buildPostAux tokens [] with e | s
  · rw [haux] at h
    simp at h
  · rw [haux] at h
    rcases s with _ | ⟨t, _ | ⟨u, more⟩⟩
    · simp at h
    · simp at h
      subst h
      rfl
    · simp at h

/-- A successful prefix build means the stack loop (over the reversed
input) ended with exactly the returned tree on the stack. -/
theorem build_pre_ok (tokens : List String) (T : TreeNode)
    (h : build_tree_from_prefix tokens = .ok T) :
    buildPreAux tokens.reverse [] = .ok [T] := by
  unfold build_tree_from_prefix at h
  rcases haux : buildPreAux tokens.reverse [] with e | s
  · rw [haux] at h
    simp at h
  · rw [haux] at h
    rcases s with _ | ⟨t, _ | ⟨u, more⟩⟩
    · simp at h
    · simp at h
      subst h
      rfl
    · simp at h

/-- The postfix stack loop preserves well-formedness of every stack entry. -/
theorem buildPostAux_wf : ∀ (ts : List String) (s s' : List TreeNode),
    buildPostAux ts s = .ok s' → (∀ n ∈ s, WellFormed n) → ∀ n ∈ s', WellFormed n := by
  intro ts
  induction ts with
  | nil =>
    intro s s' h hs
    simp [buildPostAux] at h
    subst h
    exact hs
  | cons t ts ih =>
    intro s s' h hs
    by_cases hA : is_operand t = true
    · rw [show buildPostAux (t :: ts) s = buildPostAux ts (leaf t :: s) by
        simp [buildPostAux, hA]] at h
      refine ih _ _ h ?_
      intro n hn
      rcases List.mem_cons.mp hn with rfl | hn
      · exact WellFormed.leafWF t hA
      · exact hs n hn
    · by_cases hB : is_operator t = true
      · rcases s with _ | ⟨r, _ | ⟨l, rest⟩⟩
        · simp [buildPostAux, hA, hB] at h
        · simp [buildPostAux, hA, hB] at h
        · rw [show buildPostAux (t :: ts) (r :: l :: rest)
              = buildPostAux ts (TreeNode.mk t (some l) (some r) :: rest) by
            simp [buildPostAux, hA, hB]] at h
          refine ih _ _ h ?_
          intro n hn
          rcases List.mem_cons.mp hn with rfl | hn
          · exact WellFormed.nodeWF t l r hB (hs l (by simp)) (hs r (by simp))
          · exact hs n (by simp [hn])
      · simp [buildPostAux, hA, hB] at h

/-- The prefix stack loop preserves well-formedness of every stack entry. -/
theorem buildPreAux_wf : ∀ (ts : List String) (s s' : List TreeNode),
    buildPreAux ts s = .ok s' → (∀ n ∈ s, WellFormed n) → ∀ n ∈ s', WellFormed n := by
  intro ts
  induction ts with
  | nil =>
    intro s s' h hs
    simp [buildPreAux] at h
    subst h
    exact hs
  | cons t ts ih =>
    intro s s' h hs
    by_cases hA : is_operand t = true
    · rw [show buildPreAux (t :: ts) s = buildPreAux ts (leaf t :: s) by
        simp [buildPreAux, hA]] at h
      refine ih _ _ h ?_
      intro n hn
      rcases List.mem_cons.mp hn with rfl | hn
      · exact WellFormed.leafWF t hA
      · exact hs n hn
    · by_cases hB : is_operator t = true
      · rcases s with _ | ⟨l, _ | ⟨r, rest⟩⟩
        · simp [buildPreAux, hA, hB] at h
        · simp [buildPreAux, hA, hB] at h
        · rw [show buildPreAux (t :: ts) (l :: r :: rest)
              = buildPreAux ts (TreeNode.mk t (some l) (some r) :: rest) by
            simp [buildPreAux, hA, hB]] at h
          refine ih _ _ h ?_
          intro n hn
          rcases List.mem_cons.mp hn with rfl | hn
          · exact WellFormed.nodeWF t l r hB (hs l (by simp)) (hs r (by simp))
          · exact hs n (by simp [hn])
      · simp [buildPreAux, hA, hB] at h

/-- Popping for a `)` on a stack holding no `(` always reaches the final
unguarded pop of the empty stack, i.e. the `IndexError`. -/
theorem popUntilParen_no_paren : ∀ (stack out : List String), "(" ∉ stack →
    popUntilParen stack out = .error .indexError := by
  intro stack
  induction stack with
  | nil =>
    intro out _
    rfl
  | cons top rest ih =>
    intro out h
    have h1 : (top == "(") = false := by
      refine beq_eq_false_iff_ne.mpr ?_
      intro e
      exact h (by simp [e])
    have h2 : ("(" : String) ∉ rest := by
      intro e
      exact h (by simp [e])
    simp [popUntilParen, h1, ih _ h2]

/-- Evaluating an operand leaf whose token parses as a number. -/
theorem evaluate_leaf (v : String) (q : ℚ) (hv : is_operand v = true)
    (hq : float_of_token v = some q) : evaluate_tree (some (leaf v)) = .ok q := by
  simp [leaf, evaluate_tree, hv, hq]

/-- Concrete tree `(3 + 4)`, used by the witnesses below. -/
def exTree : TreeNode := .mk "+" (some (leaf "3")) (some (leaf "4"))

/-- Concrete tree `((7 * 8) - (2 / 4))`. -/
def demoTree : TreeNode :=
  .mk "-" (some (.mk "*" (some (leaf "7")) (some (leaf "8"))))
    (some (.mk "/" (some (leaf "2")) (some (leaf "4"))))

/-! ### Claims -/

/-- C1: for every tree `T` built by `build_tree_from_postfix` from a valid
postfix token sequence, ` to_postfix T` reproduces the original token
sequence and rebuilding from it returns a tree structurally identical to
`T`; the symmetric round-trip holds for `build_tree_from_prefix` and
` to_prefix`. -/
theorem build_round_trip (tokens : List String) (T : TreeNode) :
    ( build_tree_from_postfix tokens = .ok T →
      to_postfix (some T) = tokens ∧
        build_tree_from_postfix ( to_postfix (some T)) = .ok T) ∧
    ( build_tree_from_prefix tokens = .ok T →
      to_prefix (some T) = tokens ∧
        build_tree_from_prefix ( to_prefix (some T)) = .ok T) := by
  constructor
  · intro h
    have haux := build_post_ok tokens T h
    have htok := buildPostAux_tokens tokens [] [T] haux
    have hpost : to_postfix (some T) = tokens := by
      simpa [stackPostTokens] using htok
    exact ⟨hpost, by rw [hpost]; exact h⟩
  · intro h
    have haux := build_pre_ok tokens T h
    have htok := buildPreAux_tokens tokens.reverse [] [T] haux
    have hpre : to_prefix (some T) = tokens := by
      simpa [stackPreTokens] using htok
    exact ⟨hpre, by rw [hpre]; exact h⟩

/-- Witness for C1 at the postfix input `3 4 +` and the prefix input
`+ 3 4`, both of which build the tree `(3 + 4)`. -/
theorem build_round_trip_witness :
    ( build_tree_from_postfix ["3", "4", "+"] = .ok exTree ∧
      to_postfix (some exTree) = ["3", "4", "+"] ∧
        build_tree_from_postfix ( to_postfix (some exTree)) = .ok exTree) ∧
    ( build_tree_from_prefix ["+", "3", "4"] = .ok exTree ∧
      to_prefix (some exTree) = ["+", "3", "4"] ∧
        build_tree_from_prefix ( to_prefix (some exTree)) = .ok exTree) := by
  have h1 := (build_round_trip ["3", "4", "+"] exTree).1 (by rfl)
  have h2 := (build_round_trip ["+", "3", "4"] exTree).2 (by rfl)
  exact ⟨⟨by rfl, h1.1, h1.2⟩, ⟨by rfl, h2.1, h2.2⟩⟩

/-- C2: every tree returned by `build_tree_from_postfix` or
`build_tree_from_prefix` satisfies the node invariant: an operand node is
a leaf and an operator node has both children present; no partially-filled
operator node exists. -/
theorem build_wellformed (tokens : List String) (T : TreeNode)
    (h : build_tree_from_postfix tokens = .ok T ∨
      build_tree_from_prefix tokens = .ok T) :
    WellFormed T := by
  rcases h with h | h
  · exact buildPostAux_wf tokens [] [T] (build_post_ok tokens T h)
      (by simp) T (by simp)
  · exact buildPreAux_wf tokens.reverse [] [T] (build_pre_ok tokens T h)
      (by simp) T (by simp)

/-- Witness for C2: the tree built from the postfix input `3 4 +` is
well-formed. -/
theorem build_wellformed_witness :
    build_tree_from_postfix ["3", "4", "+"] = .ok exTree ∧ WellFormed exTree :=
  ⟨by rfl, build_wellformed ["3", "4", "+"] exTree (Or.inl (by rfl))⟩

/-- C3: `infix_to_postfix` maps `7 * 8 - 2 / 4` to exactly
`7 8 * 2 4 / -`. -/
theorem infix_conversion_example :
    infix_to_postfix ["7", "*", "8", "-", "2", "/", "4"]
      = .ok ["7", "8", "*", "2", "4", "/", "-"] := by rfl

/-- C4: evaluating the tree built from the postfix sequence
`7 8 * 2 4 / -` yields `7*8 - 2/4 = 55.5`. -/
theorem evaluate_example :
    build_tree_from_postfix ["7", "8", "*", "2", "4", "/", "-"] = .ok demoTree ∧
    evaluate_tree (some demoTree) = .ok (55.5 : ℚ) := by
  refine ⟨by rfl, ?_⟩
  have ho1 : is_operand "-" = false := by decide
  have ho2 : is_operand "*" = false := by decide
  have ho3 : is_operand "/" = false := by decide
  have hp1 : is_operator "-" = true := by decide
  have hp2 : is_operator "*" = true := by decide
  have hp3 : is_operator "/" = true := by decide
  have h7 := evaluate_leaf "7" 7 (by decide) (by rfl)
  have h8 := evaluate_leaf "8" 8 (by decide) (by rfl)
  have h2 := evaluate_leaf "2" 2 (by decide) (by rfl)
  have h4 := evaluate_leaf "4" 4 (by decide) (by rfl)
  simp [demoTree, evaluate_tree, ho1, ho2, ho3, hp1, hp2, hp3,
    h7, h8, h2, h4, applyOp]
  norm_num

/-- Counterexample to C5: on the unclosed-parenthesis input
`( 3 + 4` the conversion does not fail at all — the final stack sweep pops
the leftover `(` into the output, and the call returns normally. -/
theorem unclosed_paren_no_error :
    infix_to_postfix ["(", "3", "+", "4"] = .ok ["3", "4", "+", "("] := by rfl

/-- C5 as amended: reading a `)` when no `(` is on the operator stack
fails, but with the `IndexError` of popping an empty stack, not a named
unbalanced-parentheses error; an unclosed `(` such as `( 3 + 4` does not
make the conversion fail — it returns an output containing the `(` token,
and the failure only surfaces downstream, when the tree builder rejects
`(` as an invalid token. -/
theorem unbalanced_paren_behavior (stack out rest : List String)
    (h : "(" ∉ stack) :
    shuntAux (")" :: rest) stack out = .error .indexError ∧
    infix_to_postfix ["(", "3", "+", "4"] = .ok ["3", "4", "+", "("] ∧
    build_tree_from_postfix ["3", "4", "+", "("]
      = .error (.invalidToken "(") := by
  refine ⟨?_, by rfl, by rfl⟩
  have hA : is_operand ")" = false := by decide
  have hB : is_operator ")" = false := by decide
  simp [shuntAux, hA, hB, popUntilParen_no_paren stack out h]

/-- Witness for C5 as amended: a `)` arriving while the operator stack
holds only `+`. -/
theorem unbalanced_paren_behavior_witness :
    (("(" : String) ∉ (["+"] : List String)) ∧
    shuntAux [")"] ["+"] ["3"] = .error .indexError := by
  have h : ("(" : String) ∉ (["+"] : List String) := by decide
  exact ⟨h, (unbalanced_paren_behavior ["+"] ["3"] [] h).1⟩

/-- Counterexample to C6: on the empty token sequence the detector does
not report an empty-expression error (there is no emptiness check in the
code). -/
theorem detect_empty_not_empty_error :
    detect_expression_type [] ≠ .error .emptyExpression := by
  simp [detect_expression_type]

/-- C6 as amended: on the empty token sequence the detector fails with the
`IndexError` raised by indexing the first token; no emptiness check runs
before that indexing. -/
theorem detect_empty_index_error :
    detect_expression_type [] = .error .indexError := by rfl

/-- Counterexample to C7: dividing by a zero operand makes evaluation fail
with the `ZeroDivisionError` of Python float division — no floating-point
infinity is propagated. -/
theorem division_by_zero_raises :
    evaluate_tree (some (.mk "/" (some (leaf "2")) (some (leaf "0"))))
      = .error .zeroDivision := by
  have h1 : is_operand "/" = false := by decide
  have h2 : is_operator "/" = true := by decide
  have h3 := evaluate_leaf "2" 2 (by decide) (by rfl)
  have h4 := evaluate_leaf "0" 0 (by decide) (by rfl)
  simp [evaluate_tree, h1, h2, h3, h4, applyOp]

/-- C7 as amended: whenever the right operand of a division node evaluates
to zero (and the left operand evaluates without error), `evaluate_tree`
fails with the division-by-zero error, rather than propagating an
infinity. -/
theorem division_by_zero_error (l r : Option TreeNode) (x : ℚ)
    (hl : evaluate_tree l = .ok x) (hr : evaluate_tree r = .ok 0) :
    evaluate_tree (some (.mk "/" l r)) = .error .zeroDivision := by
  have h1 : is_operand "/" = false := by decide
  have h2 : is_operator "/" = true := by decide
  simp [evaluate_tree, h1, h2, hl, hr, applyOp]

/-- Witness for C7 as amended: the tree `2 / 0`. -/
theorem division_by_zero_error_witness :
    evaluate_tree (some (leaf "2")) = .ok 2 ∧
    evaluate_tree (some (leaf "0")) = .ok 0 ∧
    evaluate_tree (some (.mk "/" (some (leaf "2")) (some (leaf "0"))))
      = .error .zeroDivision := by
  have h2 := evaluate_leaf "2" 2 (by decide) (by rfl)
  have h0 := evaluate_leaf "0" 0 (by decide) (by rfl)
  exact ⟨h2, h0, division_by_zero_error (some (leaf "2")) (some (leaf "0")) 2 h2 h0⟩

/-- C8: on every non-empty token sequence the detector returns `prefix`
when the first token is an operator, otherwise `postfix` when the last
token is an operator, otherwise `infix` (so a single operand is classified
`infix`, not an error). -/
theorem detect_rule (e : List String) (h : e ≠ []) :
    detect_expression_type e =
      .ok (if is_operator (e.head h) then "prefix"
        else if is_operator (e.getLast h) then "postfix" else "infix") := by
  match e with
  | [] => exact absurd rfl h
  | t :: ts =>
    simp only [detect_expression_type, List.head_cons]
    by_cases h1 : is_operator t = true
    · simp [h1]
    · by_cases h2 : is_operator ((t :: ts).getLast (List.cons_ne_nil t ts)) = true
      · simp [h1, h2]
      · simp [h1, h2]

/-- Witness for C8: the four example inputs from the specification,
including the single-operand sequence `3`. -/
theorem detect_rule_witness :
    detect_expression_type ["+", "3", "4"] = .ok "prefix" ∧
    detect_expression_type ["3", "4", "+"] = .ok "postfix" ∧
    detect_expression_type ["3", "+", "4"] = .ok "infix" ∧
    detect_expression_type ["3"] = .ok "infix" := by
  refine ⟨?_, ?_, ?_, ?_⟩
  · exact (detect_rule ["+", "3", "4"] (by decide)).trans (by rfl)
  · exact (detect_rule ["3", "4", "+"] (by decide)).trans (by rfl)
  · exact (detect_rule ["3", "+", "4"] (by decide)).trans (by rfl)
  · exact (detect_rule ["3"] (by decide)).trans (by rfl)

/-- C9: the postfix builder fails with the insufficient-operands error
whenever an operator token is processed with fewer than two stack items;
in particular the input `3 +` fails that way. -/
theorem insufficient_operands (t : String) (rest : List String)
    (stack : List TreeNode) (h1 : is_operator t = true)
    (h2 : stack.length < 2) :
    buildPostAux (t :: rest) stack = .error .insufficientOperands ∧
    build_tree_from_postfix ["3", "+"] = .error .insufficientOperands := by
  refine ⟨?_, by rfl⟩
  have hA := operator_not_operand t h1
  rcases stack with _ | ⟨a, _ | ⟨b, more⟩⟩
  · simp [buildPostAux, hA, h1]
  · simp [buildPostAux, hA, h1]
  · exfalso
    simp [List.length_cons] at h2
    omega

/-- Witness for C9: the operator `+` arriving while the stack holds the
single leaf `3`. -/
theorem insufficient_operands_witness :
    is_operator "+" = true ∧ ([leaf "3"] : List TreeNode).length < 2 ∧
    buildPostAux ["+"] [leaf "3"] = .error .insufficientOperands ∧
    build_tree_from_postfix ["3", "+"] = .error .insufficientOperands := by
  have h1 : is_operator "+" = true := by decide
  have h2 : ([leaf "3"] : List TreeNode).length < 2 := by simp
  exact ⟨h1, h2, (insufficient_operands "+" [] [leaf "3"] h1 h2).1,
    (insufficient_operands "+" [] [leaf "3"] h1 h2).2⟩

/-- C10: on the empty token sequence both builders end with an empty stack,
so the final stack-size check fails with the malformed-expression error —
neither a tree nor an empty-expression error. -/
theorem empty_input_malformed :
    build_tree_from_postfix [] = .error .malformedExpression ∧
    build_tree_from_prefix [] = .error .malformedExpression :=
  ⟨by rfl, by rfl⟩

end ExpressionTree
